import Mathlib

/-!
Shallow embedding of the async-code client core: the session/token
lifecycle (`AuthService`), the route guard (`ProtectedRoute`), the
lazily-initialized store client (`getSupabase`, two source variants),
the dual-mode data access layer (`SupabaseService`), and the backend
forwarding endpoint (`POST /api/validate-token`).

External collaborators (backend HTTP API, browser storage, remote
relational store) are modelled as explicit inputs: probe outcomes,
key-value cells, and a small database value with PostgREST-style
query semantics (filter, order, inclusive range, single-row with
error code "PGRST116" for "row not found", and an injectable fault).
-/

/-- `User` from auth-service: `{id, email, full_name?, github_username?}`. -/
structure User where
  id : Nat
  email : String
  full_name : Option String
  github_username : Option String
deriving DecidableEq, Repr

/-- The `AuthService` instance state: the in-memory token mirror
(`this.token`) and the durable `localStorage` slot `auth_token`.
The constructor initializes the mirror from the durable slot. -/
structure AuthState where
  token : Option String
  storage : Option String
deriving DecidableEq, Repr

/-- `new AuthService()`: `this.token = localStorage.getItem('auth_token')`. -/
def AuthState.init (stored : Option String) : AuthState :=
  { token := stored, storage := stored }

/-- Outcome of the identity probe `GET /api/auth/me`:
a 2xx response carrying `{user}`, a non-success HTTP response, or a
thrown network failure (`fetch` rejected). -/
inductive ProbeOutcome where
  | ok (user : User)
  | httpError
  | netFail
deriving DecidableEq, Repr

/-- `clearToken()`: `this.token = null; localStorage.removeItem('auth_token')`. -/
def clearToken (_s : AuthState) : AuthState :=
  { token := none, storage := none }

/-- `setToken(t)`: `this.token = t; localStorage.setItem('auth_token', t)`. -/
def setToken (_s : AuthState) (t : String) : AuthState :=
  { token := some t, storage := some t }

/-- `getCurrentUser()`. Result components: the returned `User | null`,
the post-state, and whether a network request was issued (`fetch` on
`/api/auth/me` happens only in the token-held branch). -/
def getCurrentUser (s : AuthState) (probe : String → ProbeOutcome) :
    Option User × AuthState × Bool :=
  match s.token with
  | none => (none, s, false)
  | some t =>
    match probe t with
    | .ok u => (some u, s, true)
    | .httpError => (none, clearToken s, true)
    | .netFail => (none, clearToken s, true)

/-- `logout()`: purges the token unconditionally. -/
def logout (s : AuthState) : AuthState := clearToken s

/-! ### Route guard (`ProtectedRoute`) -/

/-- What `ProtectedRoute` renders: the spinner, the protected children,
or nothing (`null`, while a redirect is in flight). -/
inductive RenderOutcome where
  | loadingView
  | content
  | nothing
deriving DecidableEq, Repr

/-- The render body of `ProtectedRoute`: `loading` → spinner;
`!supabase` (store unconfigured) → children; `!user` → `null`;
otherwise children. `configured` is `getSupabase() !== null`. -/
def protectedRouteRender (loading configured : Bool) (user : Option User) :
    RenderOutcome :=
  if loading then .loadingView
  else if !configured then .content
  else if user.isNone then .nothing
  else .content

/-- The `useEffect` in `ProtectedRoute`: `router.push('/signin')` fires
iff `supabase && !loading && !user`. -/
def protectedRouteRedirects (loading configured : Bool) (user : Option User) :
    Bool :=
  configured && !loading && user.isNone

/-! ### Store client initialization (`getSupabase`, two source variants) -/

/-- The environment as read by `getSupabase`:
`NEXT_PUBLIC_SUPABASE_URL` and `NEXT_PUBLIC_SUPABASE_ANON_KEY`. -/
structure Env where
  supabaseUrl : Option String
  supabaseAnonKey : Option String
deriving DecidableEq, Repr

/-- The store client produced by `createClient(url, key, ...)`. -/
structure Client where
  url : String
  anonKey : String
deriving DecidableEq, Repr

/-- JS truthiness of an optional environment string: present and nonempty. -/
def strTruthy : Option String → Bool
  | some s => !s.isEmpty
  | none => false

/-- State of the flag variant of `getSupabase`: the module-level cells
`supabaseInstance` and the boolean `supabaseInitialized` flag
(field named `inited` here since the source name clashes with a keyword
restriction). -/
structure SupaStateA where
  inst : Option Client
  inited : Bool
deriving DecidableEq, Repr

/-- Initial module state of the flag variant: both cells unset. -/
def supaInitA : SupaStateA := { inst := none, inited := false }

/-- Flag variant of `getSupabase`: if not yet marked initialized, read
the environment, create the client when both credentials are truthy
(else leave the instance null), and set the flag; always return the
instance cell. -/
def getSupabaseA (env : Env) (s : SupaStateA) : Option Client × SupaStateA :=
  if s.inited then (s.inst, s)
  else
    match env.supabaseUrl, env.supabaseAnonKey with
    | some url, some key =>
      if !url.isEmpty && !key.isEmpty then
        let c : Client := { url := url, anonKey := key }
        (some c, { inst := some c, inited := true })
      else (none, { inst := none, inited := true })
    | _, _ => (none, { inst := none, inited := true })

/-- Instance-check variant of `getSupabase`: the only module state is
the `supabaseInstance` cell. If it is unset, read the environment; when
either credential is falsy, return null WITHOUT touching the cell;
otherwise create and store the client. -/
def getSupabaseB (env : Env) (s : Option Client) : Option Client × Option Client :=
  match s with
  | some c => (some c, some c)
  | none =>
    match env.supabaseUrl, env.supabaseAnonKey with
    | some url, some key =>
      if !url.isEmpty && !key.isEmpty then
        let c : Client := { url := url, anonKey := key }
        (some c, some c)
      else (none, none)
    | _, _ => (none, none)

/-! ### Remote store model

The remote relational store is external to the repository; it is
modelled as row lists with PostgREST semantics for the query shapes the
service issues: `order(created_at, desc)`, `eq` filters, the inclusive
`range(start, end)` slice (PostgREST orders before slicing regardless of
builder call order), `single()` failing with code `PGRST116` when no row
matches, and an injectable fault standing for any other store error. -/

/-- A `projects` row (columns the service reads; `created_at` as a
numeric timestamp). -/
structure ProjectRow where
  id : Nat
  user_id : Nat
  name : String
  description : Option String
  repo_url : String
  repo_name : String
  repo_owner : String
  created_at : Nat
deriving DecidableEq, Repr

/-- A `tasks` row (columns the service logic touches). -/
structure TaskRow where
  id : Nat
  user_id : Nat
  project_id : Option Nat
  status : String
  created_at : Nat
deriving DecidableEq, Repr

/-- A `users` row (columns `updateUserProfile`/`getUserProfile` touch;
`preferences` is a JSON value, modelled as its serialized string). -/
structure UserRow where
  id : Nat
  full_name : Option String
  github_username : Option String
  github_token : Option String
  preferences : Option String
deriving DecidableEq, Repr

/-- The remote store plus its auth session: table contents, the
authenticated user (`supabase.auth.getUser()`), an injectable query
fault code (`none` = queries succeed), and server-side values for
inserts. -/
structure Db where
  projects : List ProjectRow
  tasks : List TaskRow
  users : List UserRow
  authUser : Option Nat
  fault : Option String
  nextId : Nat
  now : Nat
deriving DecidableEq, Repr

/-- `order('created_at', { ascending: false })` on projects: `a` may
precede `b` iff `a.created_at ≥ b.created_at`. -/
def projDesc (a b : ProjectRow) : Prop := b.created_at ≤ a.created_at

instance : DecidableRel projDesc := fun a b => Nat.decLe b.created_at a.created_at

instance : IsTotal ProjectRow projDesc := ⟨fun a b => Nat.le_total b.created_at a.created_at⟩

instance : IsTrans ProjectRow projDesc := ⟨fun _ _ _ h1 h2 => Nat.le_trans h2 h1⟩

/-- `order('created_at', { ascending: false })` on tasks. -/
def taskDesc (a b : TaskRow) : Prop := b.created_at ≤ a.created_at

instance : DecidableRel taskDesc := fun a b => Nat.decLe b.created_at a.created_at

instance : IsTotal TaskRow taskDesc := ⟨fun a b => Nat.le_total b.created_at a.created_at⟩

instance : IsTrans TaskRow taskDesc := ⟨fun _ _ _ h1 h2 => Nat.le_trans h2 h1⟩

/-- `select('*').eq('id', id).single()` on `projects`: the fault, if
injected, hits the query; otherwise zero matching rows yield the
PostgREST "row not found" code `PGRST116`. -/
def dbSingleProject (db : Db) (id : Nat) : Except String ProjectRow :=
  match db.fault with
  | some c => .error c
  | none =>
    match db.projects.find? (fun p => p.id == id) with
    | some p => .ok p
    | none => .error "PGRST116"

/-- `select(...).eq('id', id).single()` on `tasks`. -/
def dbSingleTask (db : Db) (id : Nat) : Except String TaskRow :=
  match db.fault with
  | some c => .error c
  | none =>
    match db.tasks.find? (fun t => t.id == id) with
    | some t => .ok t
    | none => .error "PGRST116"

/-- `select('*').eq('id', uid).single()` on `users`. -/
def dbSingleUser (db : Db) (uid : Nat) : Except String UserRow :=
  match db.fault with
  | some c => .error c
  | none =>
    match db.users.find? (fun u => u.id == uid) with
    | some u => .ok u
    | none => .error "PGRST116"

/-! ### Dual-mode data access layer (`SupabaseService`)

Every operation takes the resolved client (`Option Db`: `none` is
unconfigured mode, mirroring `if (!this.supabase)`), and returns
`Except SvcError`, where a `.error` is a thrown JS exception. -/

/-- A thrown error: either `new Error(msg)` or a store error object
carrying its PostgREST code. -/
inductive SvcError where
  | errMsg (msg : String)
  | dbErr (code : String)
deriving DecidableEq, Repr

/-- `getProjects` result element: the spread project row, the embedded
child rows from `tasks (id, status)`, and the three derived counters. -/
structure ProjectWithStats where
  project : ProjectRow
  tasks : List TaskRow
  task_count : Nat
  completed_tasks : Nat
  active_tasks : Nat
deriving DecidableEq, Repr

/-- The statistics annotation from `getProjects` (source lines 34-39):
children are the tasks joined on `project_id`, counters are total,
`status === 'completed'`, and `status === 'running'` counts. -/
def withStats (db : Db) (p : ProjectRow) : ProjectWithStats :=
  let children := db.tasks.filter (fun t => t.project_id == some p.id)
  { project := p
    tasks := children
    task_count := children.length
    completed_tasks := (children.filter (fun t => t.status == "completed")).length
    active_tasks := (children.filter (fun t => t.status == "running")).length }

/-- The `try` body of `getProjects`: query all projects with embedded
task statuses ordered by creation time descending, throw on a store
error, annotate each row. -/
def getProjectsTry (db : Db) : Except SvcError (List ProjectWithStats) :=
  match db.fault with
  | some c => .error (.dbErr c)
  | none => .ok ((List.insertionSort projDesc db.projects).map (withStats db))

/-- `getProjects()`: unconfigured → `[]`; any throw from the body is
caught, logged, and degraded to `[]`. -/
def getProjects (cfg : Option Db) : Except SvcError (List ProjectWithStats) :=
  match cfg with
  | none => .ok []
  | some db =>
    match getProjectsTry db with
    | .ok l => .ok l
    | .error _ => .ok []

/-- The caller-supplied fields of `createProject`. -/
structure ProjectData where
  name : String
  description : Option String
  repo_url : String
  repo_name : String
  repo_owner : String
deriving DecidableEq, Repr

/-- `createProject(projectData)`: unconfigured → throw the
local-development error; no authenticated user → throw; insert with the
session's `user_id` injected, `single()` returning the inserted row. -/
def createProject (cfg : Option Db) (pd : ProjectData) : Except SvcError ProjectRow :=
  match cfg with
  | none => .error (.errMsg "Database not available in local development mode")
  | some db =>
    match db.authUser with
    | none => .error (.errMsg "No authenticated user")
    | some uid =>
      match db.fault with
      | some c => .error (.dbErr c)
      | none =>
        .ok { id := db.nextId
              user_id := uid
              name := pd.name
              description := pd.description
              repo_url := pd.repo_url
              repo_name := pd.repo_name
              repo_owner := pd.repo_owner
              created_at := db.now }

/-- `getProject(id)`: unconfigured → `null`; `PGRST116` → `null`; any
other store error is thrown (no enclosing catch in the source). -/
def getProject (cfg : Option Db) (id : Nat) : Except SvcError (Option ProjectRow) :=
  match cfg with
  | none => .ok none
  | some db =>
    match dbSingleProject db id with
    | .ok p => .ok (some p)
    | .error c => if c = "PGRST116" then .ok none else .error (.dbErr c)

/-- `getTasks` result element: the task row with its embedded
`project:projects (...)` parent. -/
structure TaskWithProject where
  task : TaskRow
  project : Option ProjectRow
deriving DecidableEq, Repr

/-- Embed the parent project of a task (the `project:projects` join). -/
def embedProject (db : Db) (t : TaskRow) : TaskWithProject :=
  { task := t, project := db.projects.find? (fun p => some p.id == t.project_id) }

/-- The optional `eq('project_id', projectId)` filter of `getTasks`
(JS truthiness: skipped when `projectId` is absent or `0`). -/
def baseTasks (db : Db) (projectId : Option Nat) : List TaskRow :=
  match projectId with
  | some pid =>
    if pid ≠ 0 then db.tasks.filter (fun t => t.project_id == some pid) else db.tasks
  | none => db.tasks

/-- The optional `range(start, start + limit - 1)` slice of `getTasks`,
applied when `options.limit` is truthy, with `start = options.offset || 0`;
PostgREST's range is inclusive on both ends. -/
def rangeSlice (limit offset : Option Nat) (s : List α) : List α :=
  match limit with
  | some l =>
    if l ≠ 0 then
      let start := offset.getD 0
      let stop := start + l - 1
      (s.drop start).take (stop + 1 - start)
    else s
  | none => s

/-- The `try` body of `getTasks`: filter, `order('created_at', desc)`,
slice (PostgREST orders before slicing regardless of builder call
order), and the `project:projects (...)` embedding. -/
def getTasksTry (db : Db) (projectId : Option Nat) (limit offset : Option Nat) :
    Except SvcError (List TaskWithProject) :=
  match db.fault with
  | some c => .error (.dbErr c)
  | none =>
    .ok ((rangeSlice limit offset
      (List.insertionSort taskDesc (baseTasks db projectId))).map (embedProject db))

/-- `getTasks(projectId?, options?)`: unconfigured → `[]`; any throw
from the body is caught, logged, and degraded to `[]`. -/
def getTasks (cfg : Option Db) (projectId : Option Nat) (limit offset : Option Nat) :
    Except SvcError (List TaskWithProject) :=
  match cfg with
  | none => .ok []
  | some db =>
    match getTasksTry db projectId limit offset with
    | .ok l => .ok l
    | .error _ => .ok []

/-- The `try` body of `getTask(id)`: `single()` by id; `PGRST116` →
`null`; any other store error is thrown. -/
def getTaskTry (db : Db) (id : Nat) : Except SvcError (Option TaskWithProject) :=
  match dbSingleTask db id with
  | .ok t => .ok (some (embedProject db t))
  | .error c => if c = "PGRST116" then .ok none else .error (.dbErr c)

/-- `getTask(id)`: unconfigured → `null`; the thrown store error is
caught by the enclosing `catch`, logged, and degraded to `null`. -/
def getTask (cfg : Option Db) (id : Nat) : Except SvcError (Option TaskWithProject) :=
  match cfg with
  | none => .ok none
  | some db =>
    match getTaskTry db id with
    | .ok r => .ok r
    | .error _ => .ok none

/-- The fields accepted by `updateUserProfile`. -/
structure ProfileUpdates where
  full_name : Option String
  github_username : Option String
  github_token : Option String
  preferences : Option String
deriving DecidableEq, Repr

/-- Column update semantics of `.update(updates)`: a provided field
overwrites, an absent field leaves the column unchanged. -/
def updCol (newVal oldVal : Option String) : Option String :=
  match newVal with
  | some v => some v
  | none => oldVal

/-- Apply `updateUserProfile`'s patch to a users row. -/
def applyProfile (up : ProfileUpdates) (u : UserRow) : UserRow :=
  { id := u.id
    full_name := updCol up.full_name u.full_name
    github_username := updCol up.github_username u.github_username
    github_token := updCol up.github_token u.github_token
    preferences := updCol up.preferences u.preferences }

/-- What `updateUserProfile` returns: the local-mode
`{ preferences: updates.preferences }` object, or the updated row. -/
inductive ProfileResult where
  | prefsOnly (preferences : Option String)
  | row (u : UserRow)
deriving DecidableEq, Repr

/-- `updateUserProfile(updates)` together with the
`localStorage['user_preferences']` cell it may write. Unconfigured:
store the preferences in the local cache when provided (JS guard
`updates.preferences`), and return `{ preferences: updates.preferences }`.
Configured: require an authenticated user, update the row, `single()`
returning it. -/
def updateUserProfile (cfg : Option Db) (cache : Option String) (up : ProfileUpdates) :
    Except SvcError ProfileResult × Option String :=
  match cfg with
  | none =>
    let cache2 := match up.preferences with
      | some p => some p
      | none => cache
    (.ok (.prefsOnly up.preferences), cache2)
  | some db =>
    match db.authUser with
    | none => (.error (.errMsg "No authenticated user"), cache)
    | some uid =>
      match db.fault with
      | some c => (.error (.dbErr c), cache)
      | none =>
        match db.users.find? (fun u => u.id == uid) with
        | none => (.error (.dbErr "PGRST116"), cache)
        | some u => (.ok (.row (applyProfile up u)), cache)

/-! ### Backend forwarding endpoint (`POST /api/validate-token`) -/

/-- An opaque JSON document (its serialized text). -/
structure Json where
  raw : String
deriving DecidableEq, Repr

/-- The body of the endpoint's response: the backend's JSON passed
through, or the structured error payload `{error, status}`. -/
inductive RespBody where
  | passthrough (data : Json)
  | errorPayload (error : String) (status : String)
deriving DecidableEq, Repr

/-- The detailed error string built in the catch branch. -/
def connectFailMsg (backendUrl detail : String) : String :=
  "Failed to connect to backend service at " ++ backendUrl ++ ": " ++ detail

/-- The `POST` handler. Inputs: the configured backend address, the
result of `request.json()`, and the transport: sending the forwarded
request either throws (transport fault, `.error detail`) or yields the
backend's status plus the result of `response.json()`. Any throw lands
in the catch branch, which answers 500 with the structured payload. -/
def postValidateToken (backendUrl : String) (reqBody : Except String Json)
    (send : Json → Except String (Nat × Except String Json)) : Nat × RespBody :=
  match reqBody with
  | .error e => (500, .errorPayload (connectFailMsg backendUrl e) "error")
  | .ok body =>
    match send body with
    | .error e => (500, .errorPayload (connectFailMsg backendUrl e) "error")
    | .ok (status, parsed) =>
      match parsed with
      | .error e => (500, .errorPayload (connectFailMsg backendUrl e) "error")
      | .ok data => (status, .passthrough data)

/-! ### Concrete fixtures used by counterexamples and witnesses -/

/-- A store whose queries all fail with a non-not-found code
(`57014` is "query canceled"). -/
def dbFaulty : Db :=
  { projects := []
    tasks := []
    users := []
    authUser := none
    fault := some "57014"
    nextId := 1
    now := 0 }

/-- A healthy but empty store. -/
def dbEmpty : Db :=
  { projects := []
    tasks := []
    users := []
    authUser := none
    fault := none
    nextId := 1
    now := 0 }

/-- A sample project. -/
def p1 : ProjectRow :=
  { id := 1
    user_id := 7
    name := "demo"
    description := none
    repo_url := "https://github.com/o/r"
    repo_name := "r"
    repo_owner := "o"
    created_at := 10 }

/-- Sample tasks of `p1`: two completed, one running. -/
def t1 : TaskRow := ⟨1, 7, some 1, "completed", 1⟩

/-- Second sample task. -/
def t2 : TaskRow := ⟨2, 7, some 1, "completed", 2⟩

/-- Third sample task. -/
def t3 : TaskRow := ⟨3, 7, some 1, "running", 3⟩

/-- A healthy store holding one project with three tasks. -/
def dbEx : Db :=
  { projects := [p1]
    tasks := [t1, t2, t3]
    users := []
    authUser := some 7
    fault := none
    nextId := 2
    now := 0 }

/-- A concrete configured environment. -/
def envYes : Env := ⟨some "https://x.supabase.co", some "anon"⟩

/-- A concrete unconfigured environment. -/
def envNo : Env := ⟨none, none⟩

/-- The client `createClient` builds from `envYes`. -/
def clientX : Client := ⟨"https://x.supabase.co", "anon"⟩

/-- Both variants of `getSupabase` return exactly the cell they leave
behind (for the instance-check variant, the stored cell equals the
returned value). -/
theorem getSupabaseB_snd_eq_fst (env : Env) (s : Option Client) :
    (getSupabaseB env s).2 = (getSupabaseB env s).1 := by
  rcases s with _ | c
  · rcases env with ⟨u, k⟩
    rcases u with _ | u <;> rcases k with _ | k <;> simp only [getSupabaseB] <;>
      split <;> rfl
  · rfl

/-- After any call, the flag variant's state is marked initialized and
its stored instance equals the returned value. -/
theorem getSupabaseA_post (env : Env) (s : SupaStateA) :
    (getSupabaseA env s).2.inited = true ∧
    (getSupabaseA env s).2.inst = (getSupabaseA env s).1 := by
  rcases s with ⟨inst, inited⟩
  cases inited <;> simp [getSupabaseA]
  rcases env with ⟨u, k⟩
  rcases u with _ | u <;> rcases k with _ | k <;> simp
  split <;> simp

/-! ### Claim theorems -/

/-- C1. `getCurrentUser` never fails outward: with no token held it
returns absent, leaves the state untouched and issues no network call;
with a token held, any non-success probe outcome (HTTP error or network
failure) purges the token from both the in-memory mirror and the durable
store and returns absent. -/
theorem getCurrentUser_never_fails (s : AuthState) (probe : String → ProbeOutcome) :
    (s.token = none → getCurrentUser s probe = (none, s, false)) ∧
    (∀ t, s.token = some t → (∀ u, probe t ≠ .ok u) →
      (getCurrentUser s probe).1 = none ∧
      (getCurrentUser s probe).2.1.token = none ∧
      (getCurrentUser s probe).2.1.storage = none) := by
  constructor
  · intro h
    simp [getCurrentUser, h]
  · intro t ht hfail
    cases hp : probe t with
    | ok u => exact absurd hp (hfail u)
    | httpError => simp [getCurrentUser, ht, hp, clearToken]
    | netFail => simp [getCurrentUser, ht, hp, clearToken]

/-- Witness for C1 at a concrete state and probe. -/
theorem getCurrentUser_never_fails_witness :
    ((AuthState.init none).token = none →
      getCurrentUser (AuthState.init none) (fun _ => .httpError) =
        (none, AuthState.init none, false)) ∧
    ((AuthState.init (some "tok")).token = some "tok" ∧
      (getCurrentUser (AuthState.init (some "tok")) (fun _ => .httpError)).1 = none ∧
      (getCurrentUser (AuthState.init (some "tok")) (fun _ => .httpError)).2.1.storage = none) := by
  refine ⟨(getCurrentUser_never_fails (AuthState.init none) (fun _ => .httpError)).1, rfl, ?_, ?_⟩
  · exact ((getCurrentUser_never_fails (AuthState.init (some "tok")) (fun _ => .httpError)).2
      "tok" rfl (fun u h => ProbeOutcome.noConfusion h)).1
  · exact ((getCurrentUser_never_fails (AuthState.init (some "tok")) (fun _ => .httpError)).2
      "tok" rfl (fun u h => ProbeOutcome.noConfusion h)).2.2

/-- C2. The route guard's decision table: `(true,*,*)` renders the
loading view; `(false,false,*)` renders the content; `(false,true,absent)`
redirects and renders nothing; `(false,true,present)` renders the content.
The redirect effect fires exactly in the `(false,true,absent)` row. -/
theorem protectedRoute_decision_table (configured : Bool) (user : Option User) :
    protectedRouteRender true configured user = .loadingView ∧
    protectedRouteRender false false user = .content ∧
    protectedRouteRender false true none = .nothing ∧
    (∀ u, protectedRouteRender false true (some u) = .content) ∧
    (protectedRouteRedirects false true none = true) ∧
    (∀ loading, protectedRouteRedirects loading configured user = true →
      loading = false ∧ configured = true ∧ user = none) := by
  refine ⟨rfl, rfl, rfl, fun u => rfl, rfl, ?_⟩
  intro loading h
  simp only [protectedRouteRedirects, Bool.and_eq_true, Bool.not_eq_true'] at h
  exact ⟨h.1.2, h.1.1, Option.isNone_iff_eq_none.mp h.2⟩

/-- C6 counterexample. For the instance-check variant of `getSupabase`,
the configuration mode is NOT fixed at first use: a first call with an
unconfigured environment observes "not configured", and a second call
after the environment gains credentials observes "configured". -/
theorem getSupabaseB_mode_changes :
    ((getSupabaseB envNo none).1.isSome = false) ∧
    ((getSupabaseB envYes (getSupabaseB envNo none).2).1.isSome = true) := by
  exact ⟨rfl, rfl⟩

/-- C6 amended. The flag variant memoizes the mode decision outright:
after any first call, every later call returns the same client value and
leaves the state untouched, whatever the later environment. The
instance-check variant memoizes only once a client exists: a first call
that produced a client fixes the result forever, but a first call that
found no credentials leaves the cell unset, so the next call re-reads
the (possibly reconfigured) environment exactly as a first call would. -/
theorem getSupabase_memoization (env0 env1 : Env) (s : SupaStateA) :
    (getSupabaseA env1 (getSupabaseA env0 s).2 =
      ((getSupabaseA env0 s).1, (getSupabaseA env0 s).2)) ∧
    (∀ c, (getSupabaseB env0 none).1 = some c →
      getSupabaseB env1 (getSupabaseB env0 none).2 = (some c, some c)) ∧
    ((getSupabaseB env0 none).1 = none →
      getSupabaseB env1 (getSupabaseB env0 none).2 = getSupabaseB env1 none) := by
  refine ⟨?_, ?_, ?_⟩
  · have hp := getSupabaseA_post env0 s
    have key : ∀ s1 : SupaStateA, s1.inited = true → getSupabaseA env1 s1 = (s1.inst, s1) := by
      intro s1 h1
      simp [getSupabaseA, h1]
    rw [key _ hp.1, hp.2]
  · intro c hc
    have h2 := getSupabaseB_snd_eq_fst env0 none
    rw [hc] at h2
    rw [h2]
    rfl
  · intro hn
    have h2 := getSupabaseB_snd_eq_fst env0 none
    rw [hn] at h2
    rw [h2]

/-- Witness for C6 (amended) at concrete environments and state. -/
theorem getSupabase_memoization_witness :
    ((getSupabaseB envYes none).1 = some clientX) ∧
    (getSupabaseB envNo (getSupabaseB envYes none).2 = (some clientX, some clientX)) := by
  refine ⟨by decide, ?_⟩
  exact (getSupabase_memoization envYes envNo supaInitA).2.1 clientX (by decide)

/-- A range slice is a sublist of its input. -/
theorem rangeSlice_sublist (limit offset : Option Nat) (s : List α) :
    List.Sublist (rangeSlice limit offset s) s := by
  rcases limit with _ | l
  · exact List.Sublist.refl s
  · simp only [rangeSlice]
    split
    · exact ((s.drop (offset.getD 0)).take_sublist _).trans (s.drop_sublist _)
    · exact List.Sublist.refl s

/-- With a nonzero limit, the inclusive range `[o, o + l - 1]` is
exactly `drop o` then `take l`. -/
theorem rangeSlice_nonzero (l o : Nat) (hl : l ≠ 0) (s : List α) :
    rangeSlice (some l) (some o) s = (s.drop o).take l := by
  simp only [rangeSlice, hl, if_true, ne_eq, not_false_eq_true, Option.getD_some]
  congr 1
  omega

/-- C3. In unconfigured mode the list reads return an empty collection
and never throw, for any input arguments. -/
theorem unconfigured_lists_empty (projectId : Option Nat) (limit offset : Option Nat) :
    getProjects none = .ok [] ∧ getTasks none projectId limit offset = .ok [] :=
  ⟨rfl, rfl⟩

/-- C4. In unconfigured mode `createProject` always fails with the
local-development-mode error, while `updateUserProfile` with any
preferences value succeeds, writes it to the local cache, and returns
exactly `{preferences: P}`. -/
theorem unconfigured_writes (pd : ProjectData) (cache : Option String) (p : String) :
    createProject none pd = .error (.errMsg "Database not available in local development mode") ∧
    updateUserProfile none cache ⟨none, none, none, some p⟩ =
      (.ok (.prefsOnly (some p)), some p) :=
  ⟨rfl, rfl⟩

/-- C5 counterexample. On a store reporting a fault other than "row not
found" (code 57014 ≠ PGRST116), `getTask` does NOT propagate it: the
thrown error is swallowed by `getTask`'s catch and absent is returned,
so "returns absent exactly on row-not-found" and "every other fault
propagates" both fail for `getTask`. -/
theorem getTask_swallows_fault :
    dbSingleTask dbFaulty 1 = .error "57014" ∧
    ("57014" = "PGRST116" → False) ∧
    getTask (some dbFaulty) 1 = .ok none := by
  exact ⟨rfl, by decide, rfl⟩

/-- C5 amended. In configured mode, `getProject` returns absent exactly
on the "row not found" code `PGRST116` and propagates any other fault;
`getTask` returns absent on `PGRST116` and ALSO on every other fault
(its enclosing catch swallows the rethrow and normalizes it to absent). -/
theorem getById_fault_behavior (db : Db) (id : Nat) :
    (dbSingleProject db id = .error "PGRST116" → getProject (some db) id = .ok none) ∧
    (∀ c, dbSingleProject db id = .error c → c ≠ "PGRST116" →
      getProject (some db) id = .error (.dbErr c)) ∧
    (∀ p, dbSingleProject db id = .ok p → getProject (some db) id = .ok (some p)) ∧
    (∀ c, dbSingleTask db id = .error c → getTask (some db) id = .ok none) ∧
    (∀ t, dbSingleTask db id = .ok t → getTask (some db) id = .ok (some (embedProject db t))) := by
  refine ⟨?_, ?_, ?_, ?_, ?_⟩
  · intro h
    simp [getProject, h]
  · intro c h hne
    simp [getProject, h, hne]
  · intro p h
    simp [getProject, h]
  · intro c h
    by_cases hc : c = "PGRST116" <;> simp [getTask, getTaskTry, h, hc]
  · intro t h
    simp [getTask, getTaskTry, h]

/-- Witness for C5 (amended) at concrete stores. -/
theorem getById_fault_behavior_witness :
    getProject (some dbEmpty) 1 = .ok none ∧
    getProject (some dbFaulty) 1 = .error (.dbErr "57014") ∧
    getTask (some dbFaulty) 1 = .ok none ∧
    getTask (some dbEx) 2 = .ok (some (embedProject dbEx t2)) := by
  refine ⟨?_, ?_, ?_, ?_⟩
  · exact (getById_fault_behavior dbEmpty 1).1 rfl
  · exact (getById_fault_behavior dbFaulty 1).2.1 "57014" rfl (by decide)
  · exact (getById_fault_behavior dbFaulty 1).2.2.2.1 "57014" rfl
  · exact (getById_fault_behavior dbEx 2).2.2.2.2 t2 rfl

/-- C7. In configured mode with no fault, `getProjects` yields every
project exactly once (a permutation of the table), ordered by creation
time descending, each annotated with `task_count` = all children,
`completed_tasks` = children with status completed, `active_tasks` =
children with status running. -/
theorem getProjects_stats (db : Db) (h : db.fault = none) :
    ∃ l, getProjects (some db) = .ok l ∧
      List.Pairwise (fun a b => b.project.created_at ≤ a.project.created_at) l ∧
      (∀ x ∈ l,
        x.task_count = (db.tasks.filter (fun t => t.project_id == some x.project.id)).length ∧
        x.completed_tasks = ((db.tasks.filter (fun t => t.project_id == some x.project.id)).filter
          (fun t => t.status == "completed")).length ∧
        x.active_tasks = ((db.tasks.filter (fun t => t.project_id == some x.project.id)).filter
          (fun t => t.status == "running")).length) ∧
      l.map (fun x => x.project) = List.insertionSort projDesc db.projects ∧
      (l.map (fun x => x.project)).Perm db.projects := by
  refine ⟨(List.insertionSort projDesc db.projects).map (withStats db), ?_, ?_, ?_, ?_, ?_⟩
  · simp [getProjects, getProjectsTry, h]
  · rw [List.pairwise_map]
    exact List.sorted_insertionSort projDesc db.projects
  · intro x hx
    rw [List.mem_map] at hx
    obtain ⟨p, _, rfl⟩ := hx
    exact ⟨rfl, rfl, rfl⟩
  · rw [List.map_map]
    exact List.map_id'' (fun p => rfl) _
  · have he : List.map ((fun x => x.project) ∘ withStats db)
        (List.insertionSort projDesc db.projects) =
        List.insertionSort projDesc db.projects :=
      List.map_id'' (fun p => rfl) _
    rw [List.map_map, he]
    exact List.perm_insertionSort projDesc db.projects

/-- Witness for C7 at the one-project, three-task store: the annotated
counters are `task_count = 3`, `completed_tasks = 2`, `active_tasks = 1`. -/
theorem getProjects_stats_witness :
    dbEx.fault = none ∧
    (∃ l, getProjects (some dbEx) = .ok l ∧
      List.Pairwise (fun a b => b.project.created_at ≤ a.project.created_at) l ∧
      (∀ x ∈ l,
        x.task_count = (dbEx.tasks.filter (fun t => t.project_id == some x.project.id)).length ∧
        x.completed_tasks = ((dbEx.tasks.filter (fun t => t.project_id == some x.project.id)).filter
          (fun t => t.status == "completed")).length ∧
        x.active_tasks = ((dbEx.tasks.filter (fun t => t.project_id == some x.project.id)).filter
          (fun t => t.status == "running")).length) ∧
      l.map (fun x => x.project) = List.insertionSort projDesc dbEx.projects ∧
      (l.map (fun x => x.project)).Perm dbEx.projects) ∧
    getProjects (some dbEx) = .ok [withStats dbEx p1] ∧
    (withStats dbEx p1).task_count = 3 ∧
    (withStats dbEx p1).completed_tasks = 2 ∧
    (withStats dbEx p1).active_tasks = 1 :=
  ⟨rfl, getProjects_stats dbEx rfl, rfl, rfl, rfl, rfl⟩

/-- C8. In configured mode `getTasks` degrades to an empty collection on
any underlying fault; otherwise its result is ordered by creation time
descending and, when a nonzero project id is given, contains only that
project's tasks; pagination with a nonzero limit takes exactly the
inclusive row range `[offset, offset + limit - 1]` of the unpaginated
result. -/
theorem getTasks_contract (db : Db) (projectId : Option Nat) (limit offset : Option Nat) :
    (∀ c, db.fault = some c → getTasks (some db) projectId limit offset = .ok []) ∧
    (∃ ts, getTasks (some db) projectId limit offset = .ok ts ∧
      List.Pairwise (fun a b => b.task.created_at ≤ a.task.created_at) ts ∧
      (∀ p, projectId = some p → p ≠ 0 → ∀ x ∈ ts, x.task.project_id = some p)) ∧
    (∀ l o, l ≠ 0 →
      ∃ full, getTasks (some db) projectId none none = .ok full ∧
        getTasks (some db) projectId (some l) (some o) = .ok ((full.drop o).take l)) := by
  refine ⟨?_, ?_, ?_⟩
  · intro c hc
    simp [getTasks, getTasksTry, hc]
  · rcases hf : db.fault with _ | c
    · refine ⟨(rangeSlice limit offset
        (List.insertionSort taskDesc (baseTasks db projectId))).map (embedProject db),
        by simp [getTasks, getTasksTry, hf], ?_, ?_⟩
      · rw [List.pairwise_map]
        exact (List.sorted_insertionSort taskDesc (baseTasks db projectId)).sublist
          (rangeSlice_sublist limit offset _)
      · intro p hpid hp0 x hx
        rw [List.mem_map] at hx
        obtain ⟨t, ht, rfl⟩ := hx
        have ht2 : t ∈ List.insertionSort taskDesc (baseTasks db projectId) :=
          (rangeSlice_sublist limit offset _).subset ht
        rw [List.mem_insertionSort] at ht2
        subst hpid
        simp [baseTasks, hp0, List.mem_filter] at ht2
        exact ht2.2
    · exact ⟨[], by simp [getTasks, getTasksTry, hf], List.Pairwise.nil, by
        intro p _ _ x hx
        exact absurd hx (List.not_mem_nil x)⟩
  · intro l o hl
    rcases hf : db.fault with _ | c
    · refine ⟨(List.insertionSort taskDesc (baseTasks db projectId)).map (embedProject db),
        by simp [getTasks, getTasksTry, hf, rangeSlice], ?_⟩
      simp only [getTasks, getTasksTry, hf]
      rw [rangeSlice_nonzero l o hl]
      rw [← List.map_drop, List.map_take]
    · exact ⟨[], by simp [getTasks, getTasksTry, hf], by simp [getTasks, getTasksTry, hf]⟩

/-- Witness for C8 at concrete stores: the faulty store degrades to an
empty collection, the healthy store filters by project id 1, and
limit 2 / offset 1 slices the unpaginated result. -/
theorem getTasks_contract_witness :
    getTasks (some dbFaulty) (some 1) (some 2) (some 0) = .ok [] ∧
    (∃ ts, getTasks (some dbEx) (some 1) none none = .ok ts ∧
      List.Pairwise (fun a b => b.task.created_at ≤ a.task.created_at) ts ∧
      (∀ x ∈ ts, x.task.project_id = some 1)) ∧
    (∃ full, getTasks (some dbEx) none none none = .ok full ∧
      getTasks (some dbEx) none (some 2) (some 1) = .ok ((full.drop 1).take 2)) := by
  refine ⟨(getTasks_contract dbFaulty (some 1) (some 2) (some 0)).1 "57014" rfl, ?_,
    (getTasks_contract dbEx none none none).2.2 2 1 (by decide)⟩
  obtain ⟨ts, hts, hpair, hmem⟩ := (getTasks_contract dbEx (some 1) none none).2.1
  exact ⟨ts, hts, hpair, hmem 1 rfl (by decide)⟩

/-- C10. `getTasks` paginates only when a nonzero limit is provided:
with limit absent or zero, the full unpaginated result is returned and
any provided offset is ignored. -/
theorem getTasks_zero_limit_unpaginated (cfg : Option Db) (projectId : Option Nat)
    (offset : Option Nat) :
    getTasks cfg projectId none offset = getTasks cfg projectId none none ∧
    getTasks cfg projectId (some 0) offset = getTasks cfg projectId none none := by
  rcases cfg with _ | db
  · exact ⟨rfl, rfl⟩
  · rcases h : db.fault with _ | c <;>
      constructor <;> simp [getTasks, getTasksTry, rangeSlice, h]

/-- C9. The forwarding endpoint passes the backend's JSON body and
status through unchanged when the round trip succeeds, and on a
transport fault answers 500 with `{error, status: "error"}` where the
error string is the connect-failure template and contains the configured
backend address. -/
theorem postValidateToken_contract (url : String) (req : Except String Json)
    (send : Json → Except String (Nat × Except String Json)) :
    (∀ b st d, req = .ok b → send b = .ok (st, .ok d) →
      postValidateToken url req send = (st, .passthrough d)) ∧
    (∀ b e, req = .ok b → send b = .error e →
      postValidateToken url req send = (500, .errorPayload (connectFailMsg url e) "error") ∧
      ∃ pre post, connectFailMsg url e = pre ++ url ++ post) := by
  constructor
  · intro b st d hb hs
    simp [postValidateToken, hb, hs]
  · intro b e hb hs
    refine ⟨by simp [postValidateToken, hb, hs], "Failed to connect to backend service at ",
      ": " ++ e, by simp [connectFailMsg, String.append_assoc]⟩

/-- Witness for C9 at a concrete address, body, and transport. -/
theorem postValidateToken_contract_witness :
    postValidateToken "http://backend:5000" (.ok ⟨"token=t"⟩)
      (fun _ => .ok (200, .ok ⟨"valid"⟩)) = (200, .passthrough ⟨"valid"⟩) ∧
    postValidateToken "http://backend:5000" (.ok ⟨"token=t"⟩)
      (fun _ => .error "ECONNREFUSED") =
      (500, .errorPayload (connectFailMsg "http://backend:5000" "ECONNREFUSED") "error") :=
  ⟨(postValidateToken_contract "http://backend:5000" (.ok ⟨"token=t"⟩)
      (fun _ => .ok (200, .ok ⟨"valid"⟩))).1 ⟨"token=t"⟩ 200 ⟨"valid"⟩ rfl rfl,
   ((postValidateToken_contract "http://backend:5000" (.ok ⟨"token=t"⟩)
      (fun _ => .error "ECONNREFUSED")).2 ⟨"token=t"⟩ "ECONNREFUSED" rfl rfl).1⟩

/-- Witness for C2 at concrete inputs. -/
theorem protectedRoute_decision_table_witness :
    protectedRouteRender true true none = .loadingView ∧
    (protectedRouteRedirects false true (some ⟨1, "a@x.com", none, none⟩) = true →
      False) := by
  refine ⟨(protectedRoute_decision_table true none).1, ?_⟩
  intro h
  have := (protectedRoute_decision_table true (some ⟨1, "a@x.com", none, none⟩)).2.2.2.2.2
    false h
  exact Option.noConfusion this.2.2
